import Mathlib

/-!
Verification of the miden-diagnostics core: a shallow embedding of the
span algebra (src/diagnostics/src/span.rs), the source registry
(src/diagnostics/src/codemap.rs), the diagnostics handler
(src/diagnostics/src/handler.rs) and the in-flight diagnostic builder
(src/diagnostics/src/diagnostic.rs), together with theorems about the
behaviour this code exhibits.

Modelling conventions:
* machine integers (`u32` byte indices, the `u32` file-id counter) are
  `Nat`; where the Rust code can wrap (`as u32` truncation in
  `shrink_front`) the wrap is made explicit with `% 4294967296`;
* panics (`assert_eq!`, `.unwrap()`, `.expect(..)`) are modelled as
  `Option`/`Except` failure values;
* the concurrent maps of the registry are modelled sequentially as
  association lists where insertion prepends and lookup takes the first
  match (so the most recent insertion for a key wins, matching the
  "last insert wins for reads that follow" behaviour of the source);
* rendering and the output sink are external collaborators: `emit` is
  modelled as returning the diagnostic that was rendered and written
  (`some d`), or `none` when the diagnostic was discarded.
-/

/-- A `SourceId` identifies one registered source file.
Modelled from the spec: the type itself is declared outside the files
under verification; the spec describes it as an opaque 32-bit value with
a distinguished sentinel `UNKNOWN` (value 0), minted from a counter that
starts at 1. -/
structure SourceId where
  id : Nat
deriving DecidableEq

/-- The sentinel "no file" identifier (value 0). -/
def SourceId.UNKNOWN : SourceId := ⟨0⟩

def SourceId.new (id : Nat) : SourceId := ⟨id⟩

def SourceId.get (s : SourceId) : Nat := s.id

/-- A position (byte index) within a specific source file. -/
structure SourceIndex where
  source_id : SourceId
  index : Nat
deriving DecidableEq

def SourceIndex.new (source_id : SourceId) (index : Nat) : SourceIndex :=
  ⟨source_id, index⟩

/-- A byte range within a specific source file
(src/diagnostics/src/span.rs, `SourceSpan`). The `end` field of the Rust
struct is called `end_` here because `end` is a reserved word in Lean. -/
structure SourceSpan where
  source_id : SourceId
  start : Nat
  end_ : Nat
deriving DecidableEq

/-- `SourceSpan::UNKNOWN`: file id `UNKNOWN`, offsets 0,0. -/
def SourceSpan.UNKNOWN : SourceSpan := ⟨SourceId.UNKNOWN, 0, 0⟩

/-- `SourceSpan::is_unknown`: structural equality with `UNKNOWN`. -/
def SourceSpan.is_unknown (self : SourceSpan) : Bool :=
  decide (self = SourceSpan.UNKNOWN)

/-- `SourceSpan::new(start, end)`. The Rust function `assert_eq!`s that the
two indices carry the same file id and panics otherwise; the panic is
modelled as `none`. No check relates the two offsets. -/
def SourceSpan.new (start end_ : SourceIndex) : Option SourceSpan :=
  if start.source_id = end_.source_id then
    some ⟨start.source_id, start.index, end_.index⟩
  else
    none

def SourceSpan.start_index (self : SourceSpan) : Nat := self.start

def SourceSpan.end_index (self : SourceSpan) : Nat := self.end_

/-- `SourceSpan::shrink_front(offset)`: `self.start += offset` where the
offset is a signed `ByteOffset` (`i64`) and the addition truncates back
into the `u32` byte index (`as u32`), i.e. is taken mod 2^32. -/
def SourceSpan.shrink_front (self : SourceSpan) (offset : Int) : SourceSpan :=
  { self with start := (((self.start : Int) + offset) % 4294967296).toNat }

/-- `SourceSpan::merge(self, other)`: `None` when either span `is_unknown`
or the file ids differ; otherwise the span from the minimum start to the
maximum end. The inner call to `SourceSpan::new` cannot panic because
both indices are built from `self.source_id`. -/
def SourceSpan.merge (self other : SourceSpan) : Option SourceSpan :=
  if self.is_unknown || other.is_unknown then
    none
  else if self.source_id ≠ other.source_id then
    none
  else
    SourceSpan.new
      (SourceIndex.new self.source_id (min self.start_index other.start_index))
      (SourceIndex.new self.source_id (max self.end_index other.end_index))

/-- Diagnostic severity, from `codespan_reporting::diagnostic::Severity`
(the dependency this crate re-exports). -/
inductive Severity where
  | Bug
  | Error
  | Warning
  | Note
  | Help
deriving DecidableEq

/-- Verbosity threshold for the handler.
Modelled from the spec: the `Verbosity` enum lives in the crate root,
outside the files under verification. The spec describes it as a totally
ordered scale where "higher" values suppress more, used in comparisons
such as `verbosity > Verbosity::Warning`, with `Silent` as the strictest
setting and `Debug`/`Info` the most permissive. -/
inductive Verbosity where
  | Debug
  | Info
  | Warning
  | Error
  | Silent
deriving DecidableEq

/-- The position of a verbosity level on the ordered scale. -/
def Verbosity.rank : Verbosity → Nat
  | .Debug => 0
  | .Info => 1
  | .Warning => 2
  | .Error => 3
  | .Silent => 4

instance : LT Verbosity := ⟨fun a b => a.rank < b.rank⟩

instance : LE Verbosity := ⟨fun a b => a.rank ≤ b.rank⟩

instance (a b : Verbosity) : Decidable (a < b) :=
  inferInstanceAs (Decidable (a.rank < b.rank))

instance (a b : Verbosity) : Decidable (a ≤ b) :=
  inferInstanceAs (Decidable (a.rank ≤ b.rank))

/-- Label style, from `codespan_reporting::diagnostic::LabelStyle`. -/
inductive LabelStyle where
  | Primary
  | Secondary
deriving DecidableEq

/-- A label attached to a diagnostic: a style, a file id and a byte range
within that file, plus an optional message (empty string when absent),
from `codespan_reporting::diagnostic::Label<SourceId>`. -/
structure Label where
  style : LabelStyle
  file_id : SourceId
  start : Nat
  end_ : Nat
  message : String
deriving DecidableEq

/-- `Label::new(style, file_id, range)`: empty message. -/
def Label.new (style : LabelStyle) (file_id : SourceId) (start end_ : Nat) : Label :=
  ⟨style, file_id, start, end_, ""⟩

/-- `Label::primary(file_id, span)`, with the span converted to its byte
range as `From<SourceSpan> for Range<usize>` does. -/
def Label.primary (file_id : SourceId) (span : SourceSpan) : Label :=
  Label.new LabelStyle.Primary file_id span.start span.end_

/-- `Label::secondary(file_id, span)`. -/
def Label.secondary (file_id : SourceId) (span : SourceSpan) : Label :=
  Label.new LabelStyle.Secondary file_id span.start span.end_

def Label.with_message (l : Label) (message : String) : Label :=
  { l with message := message }

/-- A diagnostic record, from
`codespan_reporting::diagnostic::Diagnostic<SourceId>`. -/
structure Diagnostic where
  severity : Severity
  message : String
  code : Option String
  labels : List Label
  notes : List String
deriving DecidableEq

/-- `Diagnostic::new(severity)`. -/
def Diagnostic.new (severity : Severity) : Diagnostic :=
  ⟨severity, "", none, [], []⟩

def Diagnostic.error : Diagnostic := Diagnostic.new Severity.Error

def Diagnostic.warning : Diagnostic := Diagnostic.new Severity.Warning

def Diagnostic.note : Diagnostic := Diagnostic.new Severity.Note

def Diagnostic.with_message (d : Diagnostic) (message : String) : Diagnostic :=
  { d with message := message }

/-- A file name: a real on-disk path or a virtual (in-memory) name
(src/diagnostics/src/filename.rs). The `Cow` distinction between static
and owned virtual names does not affect equality and is dropped. -/
inductive FileName where
  | Real (path : String)
  | Virtual (name : String)
deriving DecidableEq

/-- The error type of registry lookups
(`codespan_reporting::files::Error`, restricted to the variants the
modelled operations produce). -/
inductive Error where
  | FileMissing
  | LineTooLarge
  | IndexTooLarge
  | ColumnTooLarge
deriving DecidableEq

/-- A resolved line/column position. -/
structure Location where
  line : Nat
  column : Nat
deriving DecidableEq

/-- Byte offsets at which each line after the first starts: one entry per
newline character, pointing just past it. -/
def lineStartsAux : List Char → Nat → List Nat
  | [], _ => []
  | c :: rest, i =>
    if c = '\n' then (i + 1) :: lineStartsAux rest (i + 1)
    else lineStartsAux rest (i + 1)

/-- One registered source file.
Modelled from the spec: `SourceFile` lives in a file outside the ones
under verification; the spec specifies it as an immutable wrapper around
the file's text plus a derived line-start table, carrying its id, its
display name and an optional parent span, answering line/column queries
and yielding substrings for a range. -/
structure SourceFile where
  id : SourceId
  name : FileName
  source : String
  parent : Option SourceSpan
deriving DecidableEq

/-- The line-start table of a file: offset 0 plus the offset just past
each newline. -/
def SourceFile.line_starts (f : SourceFile) : List Nat :=
  0 :: lineStartsAux f.source.data 0

/-- Modelled from the spec: the whole-line byte range for a 0-based line
index, failing for a line index with no line in the file. -/
def SourceFile.line_span (f : SourceFile) (line_index : Nat) : Except Error (Nat × Nat) :=
  match f.line_starts[line_index]? with
  | some start =>
    match f.line_starts[line_index + 1]? with
    | some next => Except.ok (start, next)
    | none => Except.ok (start, f.source.length)
  | none => Except.error Error.LineTooLarge

/-- Modelled from the spec: the 0-based line index containing a byte
offset (the last line whose start is at or before it). -/
def SourceFile.line_index (f : SourceFile) (byte : Nat) : Nat :=
  (f.line_starts.filter (fun s => decide (s ≤ byte))).length - 1

/-- Modelled from the spec: the byte offset at which a line starts. -/
def SourceFile.line_start_of (f : SourceFile) (byte : Nat) : Nat :=
  ((f.line_starts.filter (fun s => decide (s ≤ byte))).getLast?).getD 0

/-- Modelled from the spec: byte offset to line/column resolution. -/
def SourceFile.location (f : SourceFile) (byte : Nat) : Except Error Location :=
  if byte ≤ f.source.length then
    Except.ok ⟨f.line_index byte, byte - f.line_start_of byte⟩
  else
    Except.error Error.IndexTooLarge

/-- Modelled from the spec: the span covering the entire file content. -/
def SourceFile.source_span (f : SourceFile) : SourceSpan :=
  ⟨f.id, 0, f.source.length⟩

/-- Modelled from the spec: the substring of the file content covered by
a span, failing when the range does not lie within the file. -/
def SourceFile.source_slice (f : SourceFile) (span : SourceSpan) : Except Error String :=
  if span.start ≤ span.end_ ∧ span.end_ ≤ f.source.length then
    Except.ok ⟨(f.source.data.drop span.start).take (span.end_ - span.start)⟩
  else
    Except.error Error.IndexTooLarge

/-- Modelled from the spec: the single-position span for a 0-based
line/column pair ("points only to line:column"). -/
def SourceFile.line_column_to_span (f : SourceFile) (line column : Nat) :
    Except Error (Nat × Nat) :=
  match f.line_span line with
  | Except.error e => Except.error e
  | Except.ok (start, stop) =>
    if start + column ≤ stop then Except.ok (start + column, start + column)
    else Except.error Error.ColumnTooLarge

/-- First-match lookup in an association list. Models a read from one of
the registry's concurrent maps: insertion prepends, so the most recent
insertion for a key is the one a later read observes. -/
def lookupA {α β : Type} [DecidableEq α] : List (α × β) → α → Option β
  | [], _ => none
  | (k, v) :: rest, key => if key = k then some v else lookupA rest key

/-- The source registry (src/diagnostics/src/codemap.rs, `CodeMap`),
modelled sequentially: the three concurrent maps become association
lists and the atomic file-id counter a plain `Nat`. -/
structure CodeMap where
  files : List (SourceId × SourceFile)
  names : List (FileName × SourceId)
  seen : List (String × SourceId)
  next_file_id : Nat
deriving DecidableEq

/-- `CodeMap::new()`: empty maps, id counter starting at 1. -/
def CodeMap.new : CodeMap := ⟨[], [], [], 1⟩

/-- `CodeMap::next_file_id`: `fetch_add` on the counter. -/
def CodeMap.next_file_id_mint (cm : CodeMap) : SourceId × CodeMap :=
  (SourceId.new cm.next_file_id, { cm with next_file_id := cm.next_file_id + 1 })

/-- `CodeMap::insert_file`: mint an id, insert into the name index, then
insert the constructed `SourceFile` into the file index. -/
def CodeMap.insert_file (cm : CodeMap) (name : FileName) (source : String)
    (parent : Option SourceSpan) : SourceId × CodeMap :=
  let minted := cm.next_file_id_mint
  let file_id := minted.1
  let cm1 := minted.2
  let cm2 := { cm1 with names := (name, file_id) :: cm1.names }
  let f : SourceFile := ⟨file_id, name, source, parent⟩
  (file_id, { cm2 with files := (file_id, f) :: cm2.files })

/-- `CodeMap::add(name, source)`: real path names are de-duplicated via
the `seen` index; virtual names always insert fresh. In this sequential
model the `try_insert` claim of the `seen` slot always succeeds because
the preceding lookup missed. -/
def CodeMap.add (cm : CodeMap) (name : FileName) (source : String) : SourceId × CodeMap :=
  match name with
  | FileName.Real path =>
    match lookupA cm.seen path with
    | some id => (id, cm)
    | none =>
      let inserted := cm.insert_file (FileName.Real path) source none
      (inserted.1, { inserted.2 with seen := (path, inserted.1) :: inserted.2.seen })
  | FileName.Virtual v => cm.insert_file (FileName.Virtual v) source none

/-- `CodeMap::add_child(name, source, parent)`: always a fresh entry
carrying the parent span. -/
def CodeMap.add_child (cm : CodeMap) (name : FileName) (source : String)
    (parent : SourceSpan) : SourceId × CodeMap :=
  cm.insert_file name source (some parent)

/-- `CodeMap::get(file_id)`: `Err(FileMissing)` for the `UNKNOWN`
sentinel and for any id absent from the file index. -/
def CodeMap.get (cm : CodeMap) (file_id : SourceId) : Except Error SourceFile :=
  if file_id = SourceId.UNKNOWN then
    Except.error Error.FileMissing
  else
    match lookupA cm.files file_id with
    | some f => Except.ok f
    | none => Except.error Error.FileMissing

/-- `CodeMap::get_with_span(span)`: lookup by the span's file id. -/
def CodeMap.get_with_span (cm : CodeMap) (span : SourceSpan) : Except Error SourceFile :=
  cm.get span.source_id

/-- `CodeMap::parent(file_id)`. -/
def CodeMap.parent (cm : CodeMap) (file_id : SourceId) : Option SourceSpan :=
  match cm.get file_id with
  | Except.ok f => f.parent
  | Except.error _ => none

/-- `CodeMap::get_file_id(filename)`: the name index. -/
def CodeMap.get_file_id (cm : CodeMap) (filename : FileName) : Option SourceId :=
  lookupA cm.names filename

/-- `CodeMap::get_by_name(filename)`. -/
def CodeMap.get_by_name (cm : CodeMap) (filename : FileName) : Option SourceFile :=
  match cm.get_file_id filename with
  | some id =>
    match cm.get id with
    | Except.ok f => some f
    | Except.error _ => none
  | none => none

/-- `CodeMap::name(file_id)`. -/
def CodeMap.name (cm : CodeMap) (file_id : SourceId) : Except Error FileName :=
  match cm.get file_id with
  | Except.ok f => Except.ok f.name
  | Except.error e => Except.error e

/-- `CodeMap::line_column_to_span(file_id, line, column)`: resolve the
file, delegate to it, then rebuild a `SourceSpan` from two indices that
both carry `file_id` (so the `SourceSpan::new` assertion cannot fire). -/
def CodeMap.line_column_to_span (cm : CodeMap) (file_id : SourceId) (line column : Nat) :
    Except Error SourceSpan :=
  match cm.get file_id with
  | Except.error e => Except.error e
  | Except.ok f =>
    match f.line_column_to_span line column with
    | Except.error e => Except.error e
    | Except.ok (start, stop) =>
      match SourceSpan.new (SourceIndex.new file_id start) (SourceIndex.new file_id stop) with
      | some span => Except.ok span
      | none => Except.error Error.FileMissing

/-- `CodeMap::location(spanned)`: resolve the span's start offset. -/
def CodeMap.location (cm : CodeMap) (span : SourceSpan) : Except Error Location :=
  match cm.get span.source_id with
  | Except.error e => Except.error e
  | Except.ok f => f.location span.start

/-- `CodeMap::source_span(file_id)`: the whole-file span. -/
def CodeMap.source_span (cm : CodeMap) (file_id : SourceId) : Except Error SourceSpan :=
  match cm.get file_id with
  | Except.error e => Except.error e
  | Except.ok f => Except.ok f.source_span

/-- `CodeMap::source_slice(spanned)`. -/
def CodeMap.source_slice (cm : CodeMap) (span : SourceSpan) : Except Error String :=
  match cm.get span.source_id with
  | Except.error e => Except.error e
  | Except.ok f => f.source_slice span

/-- Handler configuration (the `DiagnosticsConfig` consumed at
construction; the display style only affects rendering and is
omitted). -/
structure DiagnosticsConfig where
  verbosity : Verbosity
  warnings_as_errors : Bool
  no_warn : Bool
deriving DecidableEq

/-- The diagnostics handler (src/diagnostics/src/handler.rs). The
emitter and display configuration only affect how a rendered buffer
looks and are omitted; the atomic error counter is a plain `Nat`. -/
structure DiagnosticsHandler where
  codemap : CodeMap
  err_count : Nat
  verbosity : Verbosity
  warnings_as_errors : Bool
  no_warn : Bool
  silent : Bool
deriving DecidableEq

/-- `DiagnosticsHandler::new(config, codemap, emitter)`: the effective
`no_warn` flag is `config.no_warn || config.verbosity > Verbosity::Warning`
and silent mode holds exactly when `config.verbosity == Verbosity::Silent`. -/
def DiagnosticsHandler.new (config : DiagnosticsConfig) (codemap : CodeMap) :
    DiagnosticsHandler :=
  { codemap := codemap
    err_count := 0
    verbosity := config.verbosity
    warnings_as_errors := config.warnings_as_errors
    no_warn := config.no_warn || decide (config.verbosity > Verbosity.Warning)
    silent := decide (config.verbosity = Verbosity.Silent) }

/-- `DiagnosticsHandler::lookup_file_id(filename)`. -/
def DiagnosticsHandler.lookup_file_id (self : DiagnosticsHandler) (filename : FileName) :
    Option SourceId :=
  self.codemap.get_file_id filename

/-- `DiagnosticsHandler::has_errors()`. -/
def DiagnosticsHandler.has_errors (self : DiagnosticsHandler) : Bool :=
  decide (0 < self.err_count)

/-- `DiagnosticsHandler::emit(diagnostic)`: the severity policy. The
returned pair is the handler state after the call and the diagnostic
that was rendered and written to the output sink (`none` when the
diagnostic was discarded). -/
def DiagnosticsHandler.emit (self : DiagnosticsHandler) (diagnostic : Diagnostic) :
    DiagnosticsHandler × Option Diagnostic :=
  if self.silent then
    (self, none)
  else if diagnostic.severity = Severity.Note ∧ self.verbosity > Verbosity.Info then
    (self, none)
  else if diagnostic.severity = Severity.Warning ∧ self.no_warn = true then
    (self, none)
  else
    let diagnostic :=
      if diagnostic.severity = Severity.Warning ∧ self.warnings_as_errors = true then
        { diagnostic with severity := Severity.Error }
      else diagnostic
    let self :=
      if diagnostic.severity = Severity.Error then
        { self with err_count := self.err_count + 1 }
      else self
    (self, some diagnostic)

/-- `DiagnosticsHandler::error(message)`. -/
def DiagnosticsHandler.error (self : DiagnosticsHandler) (message : String) :
    DiagnosticsHandler × Option Diagnostic :=
  self.emit (Diagnostic.error.with_message message)

/-- `DiagnosticsHandler::warn(message)`: when `warnings_as_errors` is
set it reports an error diagnostic instead. -/
def DiagnosticsHandler.warn (self : DiagnosticsHandler) (message : String) :
    DiagnosticsHandler × Option Diagnostic :=
  if self.warnings_as_errors then
    self.error message
  else
    self.emit (Diagnostic.warning.with_message message)

/-- The in-flight diagnostic builder
(src/diagnostics/src/diagnostic.rs). The handler reference of the Rust
struct becomes an explicit argument of each operation. -/
structure InFlightDiagnostic where
  file_id : Option SourceId
  diagnostic : Diagnostic
  severity : Severity
deriving DecidableEq

/-- `InFlightDiagnostic::new(handler, severity)`. -/
def InFlightDiagnostic.new (severity : Severity) : InFlightDiagnostic :=
  ⟨none, Diagnostic.new severity, severity⟩

/-- `InFlightDiagnostic::set_source_file(filename)`. -/
def InFlightDiagnostic.set_source_file (ifd : InFlightDiagnostic)
    (handler : DiagnosticsHandler) (filename : FileName) : InFlightDiagnostic :=
  { ifd with file_id := handler.codemap.get_file_id filename }

/-- `InFlightDiagnostic::with_primary_span(span)`. -/
def InFlightDiagnostic.with_primary_span (ifd : InFlightDiagnostic) (span : SourceSpan) :
    InFlightDiagnostic :=
  { ifd with diagnostic :=
      { ifd.diagnostic with
        labels := ifd.diagnostic.labels ++ [Label.primary span.source_id span] } }

/-- `InFlightDiagnostic::with_label_and_file_id(style, file_id, line,
column, message)`. A `None` file id drops the label and returns the
builder unchanged. With a file id, the Rust code `unwrap`s the registry
lookup and `expect`s the line-span resolution: both panics are modelled
as `Except.error` carrying the panic message. A 1-based `line` of 0
wraps (`line - 1` on `u32` in release mode) to 4294967295. -/
def InFlightDiagnostic.with_label_and_file_id (ifd : InFlightDiagnostic)
    (handler : DiagnosticsHandler) (style : LabelStyle) (file_id : Option SourceId)
    (line _column : Nat) (message : Option String) : Except String InFlightDiagnostic :=
  match file_id with
  | some id =>
    match handler.codemap.get id with
    | Except.error _ => Except.error "called Result::unwrap() on an Err value"
    | Except.ok source_file =>
      let line_index := if line = 0 then 4294967295 else line - 1
      match source_file.line_span line_index with
      | Except.error _ => Except.error "invalid line index"
      | Except.ok span =>
        let label :=
          match message with
          | some msg => (Label.new style id span.1 span.2).with_message msg
          | none => Label.new style id span.1 span.2
        Except.ok { ifd with diagnostic :=
          { ifd.diagnostic with labels := ifd.diagnostic.labels ++ [label] } }
  | none => Except.ok ifd

/-- `InFlightDiagnostic::with_primary_label_line_and_col(line, column,
message)`. -/
def InFlightDiagnostic.with_primary_label_line_and_col (ifd : InFlightDiagnostic)
    (handler : DiagnosticsHandler) (line column : Nat) (message : Option String) :
    Except String InFlightDiagnostic :=
  ifd.with_label_and_file_id handler LabelStyle.Primary ifd.file_id line column message

/-- `InFlightDiagnostic::with_label(style, filename, line, column,
message)`: a `None` filename drops the label. -/
def InFlightDiagnostic.with_label (ifd : InFlightDiagnostic)
    (handler : DiagnosticsHandler) (style : LabelStyle) (filename : Option FileName)
    (line column : Nat) (message : Option String) : Except String InFlightDiagnostic :=
  match filename with
  | some name =>
    ifd.with_label_and_file_id handler style (handler.lookup_file_id name) line column message
  | none => Except.ok ifd

/-- `InFlightDiagnostic::take()`. -/
def InFlightDiagnostic.take (ifd : InFlightDiagnostic) : Diagnostic :=
  ifd.diagnostic

/-- Decidable equality for modelled fallible results. -/
instance {ε α : Type} [DecidableEq ε] [DecidableEq α] : DecidableEq (Except ε α) :=
  fun a b =>
    match a, b with
    | Except.ok x, Except.ok y =>
      if h : x = y then isTrue (by rw [h]) else isFalse (by intro hc; cases hc; exact h rfl)
    | Except.error x, Except.error y =>
      if h : x = y then isTrue (by rw [h]) else isFalse (by intro hc; cases hc; exact h rfl)
    | Except.ok _, Except.error _ => isFalse (by intro hc; cases hc)
    | Except.error _, Except.ok _ => isFalse (by intro hc; cases hc)

/-- A registry holding one virtual file "f.src" with the single-line
content "abc", used to exercise the builder's line resolution. -/
def c3CodeMap : CodeMap :=
  (CodeMap.new.add (FileName.Virtual "f.src") "abc").2

/-- A handler over `c3CodeMap` with default policy flags. -/
def c3Handler : DiagnosticsHandler :=
  DiagnosticsHandler.new ⟨Verbosity.Info, false, false⟩ c3CodeMap

/-- An in-flight Error diagnostic whose source file is "f.src". -/
def c3Builder : InFlightDiagnostic :=
  (InFlightDiagnostic.new Severity.Error).set_source_file c3Handler
    (FileName.Virtual "f.src")

/-! ## Helper lemmas about the span algebra -/

/-- Merging two spans that are not `UNKNOWN` and share a file id yields
the covering span from the minimum start to the maximum end. -/
theorem SourceSpan.merge_known (a b : SourceSpan) (ha : a ≠ SourceSpan.UNKNOWN)
    (hb : b ≠ SourceSpan.UNKNOWN) (hid : a.source_id = b.source_id) :
    a.merge b = some ⟨a.source_id, min a.start b.start, max a.end_ b.end_⟩ := by
  simp [SourceSpan.merge, SourceSpan.is_unknown, ha, hb, hid, SourceSpan.new,
    SourceIndex.new, SourceSpan.start_index, SourceSpan.end_index]

/-- The result of merging two non-`UNKNOWN` same-file spans is itself
not `UNKNOWN`. -/
theorem SourceSpan.merge_result_ne_unknown (a b : SourceSpan)
    (ha : a ≠ SourceSpan.UNKNOWN) (hb : b ≠ SourceSpan.UNKNOWN)
    (hid : a.source_id = b.source_id) :
    (⟨a.source_id, min a.start b.start, max a.end_ b.end_⟩ : SourceSpan) ≠
      SourceSpan.UNKNOWN := by
  intro h
  rw [SourceSpan.UNKNOWN, SourceSpan.mk.injEq] at h
  obtain ⟨hsid, hmin, hmax⟩ := h
  rcases Nat.max_eq_zero_iff.mp hmax with ⟨hae, hbe⟩
  rcases Nat.min_eq_zero_iff.mp hmin with has | hbs
  · exact ha (by cases a; simp_all [SourceSpan.UNKNOWN])
  · exact hb (by cases b; simp_all [SourceSpan.UNKNOWN, ← hid])

/-! ## Claims about the span algebra -/

/-- C4: `SourceSpan::merge(a, b)` is `None` exactly when `a` or `b` is
`SourceSpan::UNKNOWN` or their file ids differ; for two known spans of
the same file it is the span from the minimum start offset to the
maximum end offset; merge is commutative for all spans, and associative
for same-file known spans. -/
theorem c4_merge_algebra (a b c : SourceSpan) :
    (a.merge b = none ↔
      a = SourceSpan.UNKNOWN ∨ b = SourceSpan.UNKNOWN ∨ a.source_id ≠ b.source_id) ∧
    (a ≠ SourceSpan.UNKNOWN → b ≠ SourceSpan.UNKNOWN → a.source_id = b.source_id →
      a.merge b = some ⟨a.source_id, min a.start b.start, max a.end_ b.end_⟩) ∧
    a.merge b = b.merge a ∧
    (a ≠ SourceSpan.UNKNOWN → b ≠ SourceSpan.UNKNOWN → c ≠ SourceSpan.UNKNOWN →
      a.source_id = b.source_id → b.source_id = c.source_id →
      (a.merge b).bind (fun m => m.merge c) = (b.merge c).bind (fun m => a.merge m)) := by
  refine ⟨?_, ?_, ?_, ?_⟩
  · constructor
    · intro h
      by_contra hc
      push_neg at hc
      obtain ⟨ha, hb, hid⟩ := hc
      rw [SourceSpan.merge_known a b ha hb hid] at h
      exact Option.noConfusion h
    · intro h
      rcases h with h | h | h <;>
        simp [SourceSpan.merge, SourceSpan.is_unknown, h]
  · exact SourceSpan.merge_known a b
  · by_cases ha : a = SourceSpan.UNKNOWN
    · simp [SourceSpan.merge, SourceSpan.is_unknown, ha]
    · by_cases hb : b = SourceSpan.UNKNOWN
      · simp [SourceSpan.merge, SourceSpan.is_unknown, hb]
      · by_cases hid : a.source_id = b.source_id
        · rw [SourceSpan.merge_known a b ha hb hid,
            SourceSpan.merge_known b a hb ha hid.symm, hid,
            Nat.min_comm, Nat.max_comm]
        · have hid2 : ¬ b.source_id = a.source_id := fun h => hid h.symm
          simp [SourceSpan.merge, SourceSpan.is_unknown, ha, hb, hid, hid2]
  · intro ha hb hc hab hbc
    have hac : a.source_id = c.source_id := hab.trans hbc
    have h1 := SourceSpan.merge_known a b ha hb hab
    have h2 := SourceSpan.merge_known b c hb hc hbc
    have h1ne := SourceSpan.merge_result_ne_unknown a b ha hb hab
    have h2ne := SourceSpan.merge_result_ne_unknown b c hb hc hbc
    rw [h1, h2]
    simp only [Option.some_bind]
    rw [SourceSpan.merge_known _ c h1ne hc hac,
      SourceSpan.merge_known a _ ha h2ne hab]
    simp [Nat.min_assoc, Nat.max_assoc]

/-- C7: `SourceSpan::new(start, end)` panics exactly when the two
indices carry different file ids; for two indices with the same file id
(and `start <= end` as the claim assumes) construction succeeds and
yields exactly that file id, start and end. -/
theorem c7_span_new (a b : SourceIndex) :
    (SourceSpan.new a b = none ↔ a.source_id ≠ b.source_id) ∧
    (a.source_id = b.source_id → a.index ≤ b.index →
      SourceSpan.new a b = some ⟨a.source_id, a.index, b.index⟩) := by
  constructor
  · constructor
    · intro h hid
      simp [SourceSpan.new, hid] at h
    · intro hid
      simp [SourceSpan.new, hid]
  · intro hid _
    simp [SourceSpan.new, hid]

/-- C8 counterexample: `shrink_front` does not keep `start <= end`.
Shrinking the 1-byte span `1..0x1@1` by 2 bytes yields `2..1@1`, whose
start offset exceeds its end offset, refuting the claim that no
sequence of the public constructors and derivation operations starting
from ordered spans can produce an inverted span. -/
theorem c8_counterexample :
    ¬ ((SourceSpan.mk ⟨1⟩ 0 1).shrink_front 2).start ≤
        ((SourceSpan.mk ⟨1⟩ 0 1).shrink_front 2).end_ := by
  decide

/-- C8 amended: `SourceSpan::new` yields `start <= end` when the given
indices are ordered (it performs no ordering check of its own); merging
two spans that each satisfy `start <= end` yields a span satisfying it;
and `shrink_front` preserves `start <= end` when the truncation offset
is non-negative and at most the span's length (while a larger offset,
as the counterexample shows, inverts the span). -/
theorem c8_start_le_end :
    (∀ (a b : SourceIndex) (s : SourceSpan),
      a.index ≤ b.index → SourceSpan.new a b = some s → s.start ≤ s.end_) ∧
    (∀ (x y m : SourceSpan),
      x.start ≤ x.end_ → y.start ≤ y.end_ → x.merge y = some m → m.start ≤ m.end_) ∧
    (∀ (x : SourceSpan) (k : Nat),
      x.start ≤ x.end_ → x.end_ < 4294967296 → x.start + k ≤ x.end_ →
      (x.shrink_front (k : Int)).start ≤ (x.shrink_front (k : Int)).end_) := by
  refine ⟨?_, ?_, ?_⟩
  · intro a b s hle hnew
    by_cases hid : a.source_id = b.source_id
    · simp [SourceSpan.new, hid] at hnew
      rw [← hnew]
      exact hle
    · simp [SourceSpan.new, hid] at hnew
  · intro x y m hx hy hmerge
    by_cases hxu : x = SourceSpan.UNKNOWN
    · simp [SourceSpan.merge, SourceSpan.is_unknown, hxu] at hmerge
    · by_cases hyu : y = SourceSpan.UNKNOWN
      · simp [SourceSpan.merge, SourceSpan.is_unknown, hyu] at hmerge
      · by_cases hid : x.source_id = y.source_id
        · rw [SourceSpan.merge_known x y hxu hyu hid] at hmerge
          obtain rfl := Option.some.inj hmerge
          show min x.start y.start ≤ max x.end_ y.end_
          calc min x.start y.start ≤ x.start := Nat.min_le_left _ _
            _ ≤ x.end_ := hx
            _ ≤ max x.end_ y.end_ := Nat.le_max_left _ _
        · simp [SourceSpan.merge, SourceSpan.is_unknown, hxu, hyu, hid] at hmerge
  · intro x k hle hbound hfit
    simp only [SourceSpan.shrink_front]
    omega

/-! ## Claims about the handler's severity policy -/

/-- C1 counterexample: the handler constructed with
`warnings_as_errors = true`, `no_warn = false` and `verbosity = Error`
is not in silent mode, yet emitting a Warning diagnostic produces no
output and leaves the error counter at 0, because construction derives
an effective `no_warn` from the strict verbosity. This refutes the
claim that those construction flags alone guarantee the upgrade to
Error and the counter increment. -/
theorem c1_counterexample :
    (DiagnosticsHandler.new ⟨Verbosity.Error, true, false⟩ CodeMap.new).silent = false ∧
    ((DiagnosticsHandler.new ⟨Verbosity.Error, true, false⟩ CodeMap.new).emit
        (Diagnostic.warning.with_message "w")).2 = none ∧
    ((DiagnosticsHandler.new ⟨Verbosity.Error, true, false⟩ CodeMap.new).emit
        (Diagnostic.warning.with_message "w")).1.err_count = 0 := by
  decide

/-- C1 amended: for a handler constructed with
`warnings_as_errors = true`, `no_warn = false` and a verbosity no
stricter than Warning (which also rules out silent mode), emitting a
Warning diagnostic upgrades its severity to Error before rendering and
increments the error counter by exactly one. -/
theorem c1_warning_upgrade (config : DiagnosticsConfig) (cm : CodeMap) (d : Diagnostic)
    (hw : config.warnings_as_errors = true) (hn : config.no_warn = false)
    (hv : config.verbosity ≤ Verbosity.Warning) (hd : d.severity = Severity.Warning) :
    (DiagnosticsHandler.new config cm).silent = false ∧
    (DiagnosticsHandler.new config cm).emit d =
      ({ DiagnosticsHandler.new config cm with err_count := 1 },
        some { d with severity := Severity.Error }) := by
  have hns : ¬ config.verbosity = Verbosity.Silent := by
    intro h
    rw [h] at hv
    exact absurd hv (by decide)
  have hngt : ¬ config.verbosity > Verbosity.Warning := by
    intro hgt
    have hv2 : config.verbosity.rank ≤ (Verbosity.Warning).rank := hv
    have hg2 : (Verbosity.Warning).rank < config.verbosity.rank := hgt
    omega
  constructor
  · simp [DiagnosticsHandler.new, hns]
  · simp [DiagnosticsHandler.emit, DiagnosticsHandler.new, hns, hngt, hn, hw, hd]

/-- C1 witness: the amended theorem applied at verbosity Warning. -/
theorem c1_witness :
    (DiagnosticsHandler.new ⟨Verbosity.Warning, true, false⟩ CodeMap.new).silent = false ∧
    (DiagnosticsHandler.new ⟨Verbosity.Warning, true, false⟩ CodeMap.new).emit
        (Diagnostic.warning.with_message "w") =
      ({ DiagnosticsHandler.new ⟨Verbosity.Warning, true, false⟩ CodeMap.new with
          err_count := 1 },
        some { Diagnostic.warning.with_message "w" with severity := Severity.Error }) :=
  c1_warning_upgrade ⟨Verbosity.Warning, true, false⟩ CodeMap.new
    (Diagnostic.warning.with_message "w") rfl rfl (by decide) rfl

/-- C2: `emit` discards a diagnostic — no output, error counter
unchanged — exactly when the handler is silent, or the severity is Note
with verbosity stricter than Info, or the severity is Warning with
warnings suppressed; in every other case the diagnostic is rendered and
written to the output sink. -/
theorem c2_emit_discard (h : DiagnosticsHandler) (d : Diagnostic) :
    ((h.emit d).2 = none ↔
      (h.silent = true ∨
        (d.severity = Severity.Note ∧ h.verbosity > Verbosity.Info) ∨
        (d.severity = Severity.Warning ∧ h.no_warn = true))) ∧
    ((h.emit d).2 = none → (h.emit d).1 = h) := by
  unfold DiagnosticsHandler.emit
  split_ifs with h1 h2 h3 <;> simp_all

/-- C9 counterexample: for a handler constructed with
`warnings_as_errors = true` and `no_warn = true` (verbosity Warning, so
not silent), `warn("m")` increments the error counter and writes an
Error-severity diagnostic, while `emit` of a Warning diagnostic with the
same message is discarded with the counter unchanged — so `warn` does
not have the same effect as `emit` on a Warning diagnostic, refuting the
claim (in particular its "no output under no_warn even if
warnings_as_errors is set" part). -/
theorem c9_counterexample :
    ((DiagnosticsHandler.new ⟨Verbosity.Warning, true, true⟩ CodeMap.new).warn
        "m").1.err_count = 1 ∧
    ((DiagnosticsHandler.new ⟨Verbosity.Warning, true, true⟩ CodeMap.new).warn
        "m").2 = some (Diagnostic.error.with_message "m") ∧
    ((DiagnosticsHandler.new ⟨Verbosity.Warning, true, true⟩ CodeMap.new).emit
        (Diagnostic.warning.with_message "m")).2 = none ∧
    ((DiagnosticsHandler.new ⟨Verbosity.Warning, true, true⟩ CodeMap.new).emit
        (Diagnostic.warning.with_message "m")).1.err_count = 0 := by
  decide

/-- C9 amended: `warn(m)` routes through `emit` with a Warning
diagnostic only when `warnings_as_errors` is false; when
`warnings_as_errors` is true it instead emits an Error diagnostic with
message `m` directly, so — unless the handler is silent — it increments
the error counter and writes the Error diagnostic even when warnings
are suppressed by `no_warn`. -/
theorem c9_warn_routing :
    (∀ (h : DiagnosticsHandler) (m : String), h.warnings_as_errors = false →
      h.warn m = h.emit (Diagnostic.warning.with_message m)) ∧
    (∀ (h : DiagnosticsHandler) (m : String),
      h.warnings_as_errors = true → h.silent = false →
      (h.warn m).1.err_count = h.err_count + 1 ∧
      (h.warn m).2 = some (Diagnostic.error.with_message m)) := by
  constructor
  · intro h m hw
    simp [DiagnosticsHandler.warn, hw]
  · intro h m hw hs
    simp [DiagnosticsHandler.warn, DiagnosticsHandler.error, hw,
      DiagnosticsHandler.emit, hs, Diagnostic.error, Diagnostic.new,
      Diagnostic.with_message]

/-- C10: construction derives the handler's effective policy from the
verbosity: the effective `no_warn` flag is
`config.no_warn || config.verbosity > Warning` (so a Warning diagnostic
is discarded under strict verbosity even with `config.no_warn = false`),
and the handler is silent exactly when `config.verbosity = Silent`. -/
theorem c10_derived_flags (config : DiagnosticsConfig) (cm : CodeMap) (d : Diagnostic) :
    ((DiagnosticsHandler.new config cm).no_warn =
      (config.no_warn || decide (config.verbosity > Verbosity.Warning))) ∧
    ((DiagnosticsHandler.new config cm).silent = true ↔
      config.verbosity = Verbosity.Silent) ∧
    (config.no_warn = false → config.verbosity > Verbosity.Warning →
      config.verbosity ≠ Verbosity.Silent → d.severity = Severity.Warning →
      (DiagnosticsHandler.new config cm).silent = false ∧
      (DiagnosticsHandler.new config cm).emit d = (DiagnosticsHandler.new config cm, none)) := by
  refine ⟨rfl, by simp [DiagnosticsHandler.new], ?_⟩
  intro hn hv hns hd
  constructor
  · simp [DiagnosticsHandler.new, hns]
  · simp [DiagnosticsHandler.emit, DiagnosticsHandler.new, hns, hv, hn, hd]

/-! ## Claims about the builder and the registry -/

/-- C3 counterexample: asking for a label at line 2 of the one-line file
"f.src" does not silently drop the label — the builder panics with
"invalid line index" (the `.expect` in `with_label_and_file_id`) instead
of returning the diagnostic unchanged, refuting the claim that an
invalid line is handled like an unknown file name. -/
theorem c3_counterexample :
    c3Builder.with_primary_label_line_and_col c3Handler 2 1 none =
      Except.error "invalid line index" ∧
    c3Builder.with_primary_label_line_and_col c3Handler 2 1 none ≠
      Except.ok c3Builder := by
  decide

/-- C3 amended: a label attached by name and 1-based line/column is
silently dropped — the builder returns with the diagnostic otherwise
unchanged — when no file name is supplied, when the supplied file name
is not registered, or when no file id was resolved; but when the name
resolves and the line is invalid for the resolved file, the builder
panics with "invalid line index" instead of dropping the label. -/
theorem c3_label_resolution :
    (∀ (h : DiagnosticsHandler) (ifd : InFlightDiagnostic) (style : LabelStyle)
        (line column : Nat) (msg : Option String),
      ifd.with_label h style none line column msg = Except.ok ifd) ∧
    (∀ (h : DiagnosticsHandler) (ifd : InFlightDiagnostic) (style : LabelStyle)
        (name : FileName) (line column : Nat) (msg : Option String),
      h.lookup_file_id name = none →
      ifd.with_label h style (some name) line column msg = Except.ok ifd) ∧
    (∀ (h : DiagnosticsHandler) (ifd : InFlightDiagnostic) (line column : Nat)
        (msg : Option String),
      ifd.file_id = none →
      ifd.with_primary_label_line_and_col h line column msg = Except.ok ifd) ∧
    (∀ (h : DiagnosticsHandler) (ifd : InFlightDiagnostic) (style : LabelStyle)
        (name : FileName) (id : SourceId) (f : SourceFile) (line column : Nat)
        (msg : Option String) (e : Error),
      h.lookup_file_id name = some id →
      h.codemap.get id = Except.ok f →
      f.line_span (if line = 0 then 4294967295 else line - 1) = Except.error e →
      ifd.with_label h style (some name) line column msg =
        Except.error "invalid line index") := by
  refine ⟨?_, ?_, ?_, ?_⟩
  · intro h ifd style line column msg
    rfl
  · intro h ifd style name line column msg hname
    simp [InFlightDiagnostic.with_label, hname, InFlightDiagnostic.with_label_and_file_id]
  · intro h ifd line column msg hfid
    simp [InFlightDiagnostic.with_primary_label_line_and_col, hfid,
      InFlightDiagnostic.with_label_and_file_id]
  · intro h ifd style name id f line column msg e hname hget hline
    simp [InFlightDiagnostic.with_label, hname,
      InFlightDiagnostic.with_label_and_file_id, hget, hline]

/-- C5: sequential registry deduplication. Adding the same real path
twice returns the same `SourceId` both times; adding the same virtual
name twice always returns two distinct `SourceId`s, and afterwards
`get_file_id` and `get_by_name` for that virtual name resolve to the
most recently inserted id (and its content). -/
theorem c5_dedup (cm : CodeMap) (path src1 src2 vname : String) :
    ((cm.add (FileName.Real path) src1).2.add (FileName.Real path) src2).1 =
      (cm.add (FileName.Real path) src1).1 ∧
    ((cm.add (FileName.Virtual vname) src1).2.add (FileName.Virtual vname) src2).1 ≠
      (cm.add (FileName.Virtual vname) src1).1 ∧
    ((cm.add (FileName.Virtual vname) src1).2.add (FileName.Virtual vname) src2).2.get_file_id
        (FileName.Virtual vname) =
      some ((cm.add (FileName.Virtual vname) src1).2.add (FileName.Virtual vname) src2).1 ∧
    ((cm.add (FileName.Virtual vname) src1).2.add (FileName.Virtual vname) src2).2.get_by_name
        (FileName.Virtual vname) =
      some ⟨((cm.add (FileName.Virtual vname) src1).2.add (FileName.Virtual vname) src2).1,
        FileName.Virtual vname, src2, none⟩ := by
  refine ⟨?_, ?_, ?_, ?_⟩
  · cases hseen : lookupA cm.seen path with
    | some id =>
      simp [CodeMap.add, hseen]
    | none =>
      simp [CodeMap.add, hseen, CodeMap.insert_file, CodeMap.next_file_id_mint, lookupA]
  · simp [CodeMap.add, CodeMap.insert_file, CodeMap.next_file_id_mint, SourceId.new]
  · simp [CodeMap.add, CodeMap.insert_file, CodeMap.next_file_id_mint,
      CodeMap.get_file_id, lookupA]
  · simp [CodeMap.add, CodeMap.insert_file, CodeMap.next_file_id_mint,
      CodeMap.get_file_id, CodeMap.get_by_name, CodeMap.get, lookupA,
      SourceId.new, SourceId.UNKNOWN]

/-- C6: every registry lookup by id or span fails with the recoverable
`FileMissing` error — rather than panicking or resolving against a real
file — whenever the id is the `UNKNOWN` sentinel (equivalently the span
is `SourceSpan::UNKNOWN`) or the id is absent from the registry's file
index. -/
theorem c6_missing_file (cm : CodeMap) (id : SourceId) (s e line col : Nat)
    (hbad : id = SourceId.UNKNOWN ∨ lookupA cm.files id = none) :
    cm.get id = Except.error Error.FileMissing ∧
    cm.get_with_span ⟨id, s, e⟩ = Except.error Error.FileMissing ∧
    cm.name id = Except.error Error.FileMissing ∧
    cm.location ⟨id, s, e⟩ = Except.error Error.FileMissing ∧
    cm.source_span id = Except.error Error.FileMissing ∧
    cm.source_slice ⟨id, s, e⟩ = Except.error Error.FileMissing ∧
    cm.line_column_to_span id line col = Except.error Error.FileMissing := by
  have hget : cm.get id = Except.error Error.FileMissing := by
    rcases hbad with h | h
    · simp [CodeMap.get, h]
    · by_cases hu : id = SourceId.UNKNOWN
      · simp [CodeMap.get, hu]
      · simp [CodeMap.get, hu, h]
  refine ⟨hget, ?_, ?_, ?_, ?_, ?_, ?_⟩ <;>
    simp [CodeMap.get_with_span, CodeMap.name, CodeMap.location,
      CodeMap.source_span, CodeMap.source_slice, CodeMap.line_column_to_span, hget]

/-- C6 witness: the theorem applied to the empty registry and the
`UNKNOWN` sentinel. -/
theorem c6_witness :
    (SourceId.UNKNOWN = SourceId.UNKNOWN ∨
      lookupA CodeMap.new.files SourceId.UNKNOWN = none) ∧
    (CodeMap.new.get SourceId.UNKNOWN = Except.error Error.FileMissing ∧
      CodeMap.new.get_with_span ⟨SourceId.UNKNOWN, 0, 0⟩ = Except.error Error.FileMissing ∧
      CodeMap.new.name SourceId.UNKNOWN = Except.error Error.FileMissing ∧
      CodeMap.new.location ⟨SourceId.UNKNOWN, 0, 0⟩ = Except.error Error.FileMissing ∧
      CodeMap.new.source_span SourceId.UNKNOWN = Except.error Error.FileMissing ∧
      CodeMap.new.source_slice ⟨SourceId.UNKNOWN, 0, 0⟩ = Except.error Error.FileMissing ∧
      CodeMap.new.line_column_to_span SourceId.UNKNOWN 0 0 = Except.error Error.FileMissing) :=
  ⟨Or.inl rfl, c6_missing_file CodeMap.new SourceId.UNKNOWN 0 0 0 0 (Or.inl rfl)⟩
